import Mathlib

/-!
Verification development for the ComfyUI ArtHub extension
(`src/comfyui-arthub-extension/__init__.py`): a single-slot mailbox holding
at most one pending workflow document, exposed through three HTTP handlers
(`load_workflow` = submit, `get_pending_workflow` = poll, `status`).

The Python module-level state `pending_workflow = {"data": None, "loaded": False}`
is embedded as the structure `PendingWorkflow`; each async handler becomes a
pure function from the current state (and, for submit, the parse result of the
request body) to a response paired with the next state.  JSON documents are an
inductive `Json` type; Python truthiness of a decoded JSON value is embedded
as `Json.truthy` because the poll handler tests `if pending_workflow["data"]`
(truthiness), not `is not None`.
-/

/-- Opaque JSON documents, as produced by `await request.json()`.  Numbers are
modelled as integers; none of the mailbox logic inspects numeric values beyond
Python truthiness (zero vs nonzero). -/
inductive Json where
  | null : Json
  | bool : Bool → Json
  | num : Int → Json
  | str : String → Json
  | arr : List Json → Json
  | obj : List (String × Json) → Json
deriving Repr

/-- Python truthiness of a JSON-decoded value: `None`, `False`, `0`, `""`,
`[]` and `{}` are falsy, everything else is truthy. -/
def Json.truthy : Json → Bool
  | .null => false
  | .bool b => b
  | .num n => n != 0
  | .str s => !s.isEmpty
  | .arr xs => !xs.isEmpty
  | .obj fs => !fs.isEmpty

/-- The module-level mutable dict `pending_workflow = {"data": None, "loaded": False}`:
`data` is the held payload (absent = Python `None`), `loaded` is the delivered
flag. -/
structure PendingWorkflow where
  data : Option Json
  loaded : Bool
deriving Repr

/-- The state at process start: `{"data": None, "loaded": False}`. -/
def initial_pending_workflow : PendingWorkflow :=
  { data := none, loaded := false }

/-- Python truthiness of `pending_workflow["data"]`: `None` is falsy, a JSON
value is tested by `Json.truthy`. -/
def PendingWorkflow.dataTruthy (s : PendingWorkflow) : Bool :=
  match s.data with
  | none => false
  | some w => w.truthy

/-- Response of the submit handler `load_workflow`: HTTP status together with
the JSON body fields (`success`, and `message` on success / `error` on
failure). -/
structure SubmitResponse where
  httpStatus : Nat
  success : Bool
  message : Option String
  error : Option String
deriving Repr

/-- Response body of the poll handler `get_pending_workflow`: `hasWorkflow`,
and the `workflow` field when present. -/
structure PollResponse where
  hasWorkflow : Bool
  workflow : Option Json
deriving Repr

/-- Response body of the `status` handler. -/
structure StatusResponse where
  installed : Bool
  version : String
  name : String
deriving Repr

/-- The submit handler (`POST /arthub/load_workflow`).  The argument `body`
is the outcome of `await request.json()` inside the `try`: `Except.ok data`
when the body parses to the JSON value `data`, `Except.error e` when parsing
raises an exception whose string form is `e`.  On success the handler stores
the payload and clears the delivered flag; on failure it returns a 400
response carrying the exception text and leaves the state untouched. -/
def load_workflow (body : Except String Json) (s : PendingWorkflow) :
    SubmitResponse × PendingWorkflow :=
  match body with
  | .ok data =>
      ({ httpStatus := 200, success := true,
         message := some "Workflow queued for loading", error := none },
       { data := some data, loaded := false })
  | .error e =>
      ({ httpStatus := 400, success := false, message := none, error := some e },
       s)

/-- The poll handler (`GET /arthub/get_pending_workflow`).  The Python guard
is `if pending_workflow["data"] and not pending_workflow["loaded"]`, i.e. the
held payload must be truthy and the delivered flag clear; then the payload is
returned and the flag set.  Otherwise `{"hasWorkflow": False}` is returned and
the state is unchanged. -/
def get_pending_workflow (s : PendingWorkflow) :
    PollResponse × PendingWorkflow :=
  if s.dataTruthy && !s.loaded then
    ({ hasWorkflow := true, workflow := s.data }, { s with loaded := true })
  else
    ({ hasWorkflow := false, workflow := none }, s)

/-- The status handler (`GET /arthub/status`): a fixed descriptor, state
untouched. -/
def status (s : PendingWorkflow) : StatusResponse × PendingWorkflow :=
  ({ installed := true, version := "1.0.0", name := "ComfyUI ArtHub Extension" },
   s)

/-- One external operation on the mailbox: a submit with a given body parse
outcome, a poll, or a status query. -/
inductive Op where
  | submit : Except String Json → Op
  | poll : Op
  | stat : Op
deriving Repr

/-- The state transition of one operation (the response is discarded). -/
def step (s : PendingWorkflow) : Op → PendingWorkflow
  | .submit b => (load_workflow b s).2
  | .poll => (get_pending_workflow s).2
  | .stat => (status s).2

/-- Run a sequence of operations from a state. -/
def run (s : PendingWorkflow) : List Op → PendingWorkflow
  | [] => s
  | op :: ops => run (step s op) ops

/-- The responses of `n` consecutive polls (no intervening submits) starting
from state `s`. -/
def pollTrace (s : PendingWorkflow) : Nat → List PollResponse
  | 0 => []
  | n + 1 =>
      (get_pending_workflow s).1 :: pollTrace (get_pending_workflow s).2 n

/-- The state after `n` consecutive polls starting from `s`. -/
def pollIter (s : PendingWorkflow) : Nat → PendingWorkflow
  | 0 => s
  | n + 1 => pollIter (get_pending_workflow s).2 n

/-- The mailbox invariant of the claim set: the delivered flag is only ever
set while a payload is held. -/
def mailboxInv (s : PendingWorkflow) : Prop :=
  s.loaded = true → s.data ≠ none

/-! ### Basic behaviour of the poll handler -/

/-- When the held payload is truthy and undelivered, a poll returns it and
sets the delivered flag. -/
theorem poll_pending (s : PendingWorkflow) (h : s.dataTruthy = true)
    (h2 : s.loaded = false) :
    get_pending_workflow s =
      ({ hasWorkflow := true, workflow := s.data }, { s with loaded := true }) := by
  simp [get_pending_workflow, h, h2]

/-- A poll on a delivered mailbox returns empty and leaves the state alone. -/
theorem poll_loaded (s : PendingWorkflow) (h : s.loaded = true) :
    get_pending_workflow s = ({ hasWorkflow := false, workflow := none }, s) := by
  simp [get_pending_workflow, h]

/-- A poll on a mailbox whose data slot is falsy returns empty and leaves the
state alone. -/
theorem poll_not_truthy (s : PendingWorkflow) (h : s.dataTruthy = false) :
    get_pending_workflow s = ({ hasWorkflow := false, workflow := none }, s) := by
  simp [get_pending_workflow, h]

/-- A poll never changes the data slot. -/
theorem poll_data_eq (s : PendingWorkflow) :
    (get_pending_workflow s).2.data = s.data := by
  unfold get_pending_workflow
  split <;> rfl

/-- A poll either leaves the state unchanged or only sets the delivered
flag. -/
theorem poll_state_cases (s : PendingWorkflow) :
    (get_pending_workflow s).2 = s ∨
      (get_pending_workflow s).2 = { s with loaded := true } := by
  unfold get_pending_workflow
  split
  · exact Or.inr rfl
  · exact Or.inl rfl

/-- If a poll reported a workflow, the resulting state has the delivered flag
set. -/
theorem poll_delivered_loaded (s : PendingWorkflow)
    (h : (get_pending_workflow s).1.hasWorkflow = true) :
    (get_pending_workflow s).2.loaded = true := by
  by_cases hc : (s.dataTruthy && !s.loaded) = true
  · simp [get_pending_workflow, hc]
  · simp [get_pending_workflow, hc] at h

/-- If a poll results in a set delivered flag, either it was already set or
the data slot was truthy. -/
theorem poll_sets_loaded_truthy (s : PendingWorkflow)
    (h : (get_pending_workflow s).2.loaded = true) :
    s.loaded = true ∨ s.dataTruthy = true := by
  by_cases hd : s.dataTruthy = true
  · exact Or.inr hd
  · left
    have hd2 : s.dataTruthy = false := by
      cases hv : s.dataTruthy
      · rfl
      · exact absurd hv hd
    rw [poll_not_truthy s hd2] at h
    exact h

/-- A truthy data slot holds a payload. -/
theorem dataTruthy_some : ∀ s : PendingWorkflow, s.dataTruthy = true → s.data ≠ none := by
  rintro ⟨d, l⟩ h
  cases d with
  | none => exact Bool.noConfusion h
  | some w => exact fun hc => Option.noConfusion hc

/-! ### Poll traces -/

/-- From a delivered state, every poll in a trace returns the empty
response. -/
theorem pollTrace_loaded (s : PendingWorkflow) (h : s.loaded = true) (n : Nat) :
    pollTrace s n = List.replicate n { hasWorkflow := false, workflow := none } := by
  induction n with
  | zero => rfl
  | succ k ih => simp [pollTrace, poll_loaded s h, List.replicate, ih]

/-- Every workflow value a poll trace ever returns is either absent or the
payload held at the start of the trace. -/
theorem pollTrace_workflow_sub (s : PendingWorkflow) (n : Nat) :
    ∀ r ∈ pollTrace s n, r.workflow = none ∨ r.workflow = s.data := by
  induction n generalizing s with
  | zero => intro r hr; cases hr
  | succ k ih =>
      intro r hr
      rw [pollTrace] at hr
      rcases List.mem_cons.mp hr with h1 | h2
      · subst h1
        by_cases hc : (s.dataTruthy && !s.loaded) = true
        · right; simp [get_pending_workflow, hc]
        · left; simp [get_pending_workflow, hc]
      · have h3 := ih (get_pending_workflow s).2 r h2
        rwa [poll_data_eq] at h3

/-! ### Invariant preservation -/

/-- Every single operation preserves the mailbox invariant. -/
theorem step_preserves_inv (s : PendingWorkflow) (op : Op) (h : mailboxInv s) :
    mailboxInv (step s op) := by
  cases op with
  | submit b =>
      cases b with
      | ok p => exact fun h2 => fun hc => Option.noConfusion hc
      | error e => exact h
  | poll =>
      intro hl
      have hd : (step s Op.poll).data = s.data := poll_data_eq s
      rw [hd]
      rcases poll_sets_loaded_truthy s hl with h1 | h1
      · exact h h1
      · exact dataTruthy_some s h1
  | stat => exact h

/-- Any sequence of operations preserves the mailbox invariant. -/
theorem run_preserves_inv (s : PendingWorkflow) (h : mailboxInv s) :
    ∀ ops : List Op, mailboxInv (run s ops) := by
  intro ops
  induction ops generalizing s with
  | nil => exact h
  | cons op ops ih => exact ih (step s op) (step_preserves_inv s op h)

/-! ### Claims -/

/-- C1, counterexample: the empty JSON object is a payload accepted by submit
(success response, stored undelivered), yet the immediately following poll
returns `hasWorkflow = false` instead of the payload, because the handler
tests the slot with Python truthiness. -/
theorem C1_counterexample :
    (load_workflow (Except.ok (Json.obj [])) initial_pending_workflow).1.success = true ∧
    (load_workflow (Except.ok (Json.obj [])) initial_pending_workflow).2 =
      { data := some (Json.obj []), loaded := false } ∧
    (get_pending_workflow
        (load_workflow (Except.ok (Json.obj [])) initial_pending_workflow).2).1 =
      { hasWorkflow := false, workflow := none } :=
  ⟨rfl, rfl, rfl⟩

/-- C1, amended: for every truthy payload accepted by submit, a single
subsequent poll returns exactly that payload with `hasWorkflow = true` and
marks it delivered; and whenever a truthy payload is present with
`delivered = false`, a poll returns it and sets the delivered flag. -/
theorem C1_truthy_submit_then_poll :
    (∀ (p : Json) (s : PendingWorkflow), p.truthy = true →
      get_pending_workflow (load_workflow (Except.ok p) s).2 =
        ({ hasWorkflow := true, workflow := some p },
         { data := some p, loaded := true })) ∧
    (∀ s : PendingWorkflow, s.dataTruthy = true → s.loaded = false →
      (get_pending_workflow s).1 = { hasWorkflow := true, workflow := s.data } ∧
      (get_pending_workflow s).2.loaded = true) := by
  constructor
  · intro p s hp
    have h1 : ({ data := some p, loaded := false } : PendingWorkflow).dataTruthy = true := hp
    exact poll_pending { data := some p, loaded := false } h1 rfl
  · intro s h1 h2
    rw [poll_pending s h1 h2]
    exact ⟨rfl, rfl⟩

/-- C1, witness: submit the (truthy) payload `7`, then poll: it is returned
with `hasWorkflow = true` and marked delivered. -/
theorem C1_truthy_submit_then_poll_witness :
    get_pending_workflow
        (load_workflow (Except.ok (Json.num 7)) initial_pending_workflow).2 =
      ({ hasWorkflow := true, workflow := some (Json.num 7) },
       { data := some (Json.num 7), loaded := true }) :=
  C1_truthy_submit_then_poll.1 (Json.num 7) initial_pending_workflow rfl

/-- C2, counterexample: submit `1` (truthy), then the empty JSON object,
before any poll.  The slot does hold only the second payload, but the next
poll returns `hasWorkflow = false`, not the second payload as the claim
states. -/
theorem C2_counterexample :
    ((load_workflow (Except.ok (Json.obj []))
        (load_workflow (Except.ok (Json.num 1)) initial_pending_workflow).2).2 =
      { data := some (Json.obj []), loaded := false }) ∧
    ((get_pending_workflow
        (load_workflow (Except.ok (Json.obj []))
          (load_workflow (Except.ok (Json.num 1)) initial_pending_workflow).2).2).1 =
      { hasWorkflow := false, workflow := none }) :=
  ⟨rfl, rfl⟩

/-- C2, amended: submitting `a` then `b` before any poll leaves exactly the
single held payload `b`, undelivered; if `b` is truthy the next poll returns
`b` with `hasWorkflow = true`; and when `a ≠ b`, no later poll (with no
further submit) ever returns `a`. -/
theorem C2_last_write_wins (a b : Json) (s s2 : PendingWorkflow)
    (hs2 : s2 = (load_workflow (Except.ok b)
      (load_workflow (Except.ok a) s).2).2) :
    s2 = { data := some b, loaded := false } ∧
    (b.truthy = true →
      (get_pending_workflow s2).1 = { hasWorkflow := true, workflow := some b }) ∧
    (∀ (n : Nat) (r : PollResponse), r ∈ pollTrace s2 n → a ≠ b →
      r.workflow ≠ some a) := by
  subst hs2
  refine ⟨rfl, ?_, ?_⟩
  · intro hb
    have h1 : ((load_workflow (Except.ok b)
        (load_workflow (Except.ok a) s).2).2).dataTruthy = true := hb
    rw [poll_pending _ h1 rfl]
    rfl
  · intro n r hr hne hc
    rcases pollTrace_workflow_sub _ n r hr with h | h
    · rw [h] at hc; exact Option.noConfusion hc
    · rw [h] at hc; exact hne (Option.some.inj hc).symm

/-- C2, witness: submit `1` then `2`; the next poll returns `2`, and that
poll response never carries `1`. -/
theorem C2_last_write_wins_witness :
    ((get_pending_workflow
        (load_workflow (Except.ok (Json.num 2))
          (load_workflow (Except.ok (Json.num 1)) initial_pending_workflow).2).2).1 =
      { hasWorkflow := true, workflow := some (Json.num 2) }) ∧
    ((get_pending_workflow
        (load_workflow (Except.ok (Json.num 2))
          (load_workflow (Except.ok (Json.num 1)) initial_pending_workflow).2).2).1.workflow ≠
      some (Json.num 1)) :=
  ⟨(C2_last_write_wins (Json.num 1) (Json.num 2) initial_pending_workflow _ rfl).2.1 rfl,
   (C2_last_write_wins (Json.num 1) (Json.num 2) initial_pending_workflow _ rfl).2.2 1 _
     (List.mem_cons_self _ _)
     (by intro h; injection h with h2; exact absurd h2 (by decide))⟩

/-- C3: once a poll has returned a payload (the delivered flag is set), every
further poll with no intervening submit returns `hasWorkflow = false`, and
the next submit resets the delivered flag to `false`. -/
theorem C3_delivered_then_polls_empty (s : PendingWorkflow) (n : Nat)
    (h : (get_pending_workflow s).1.hasWorkflow = true) :
    (∀ r ∈ pollTrace (get_pending_workflow s).2 n, r.hasWorkflow = false) ∧
    (∀ p : Json,
      (load_workflow (Except.ok p) (get_pending_workflow s).2).2.loaded = false) := by
  have hl := poll_delivered_loaded s h
  constructor
  · intro r hr
    rw [pollTrace_loaded _ hl n] at hr
    rw [List.eq_of_mem_replicate hr]
  · intro p
    rfl

/-- C3, witness: deliver the payload `5`, then the second poll reports no
workflow, and a submit of `6` afterwards clears the delivered flag. -/
theorem C3_delivered_then_polls_empty_witness :
    ((get_pending_workflow
        (get_pending_workflow { data := some (Json.num 5), loaded := false }).2).1.hasWorkflow
      = false) ∧
    ((load_workflow (Except.ok (Json.num 6))
        (get_pending_workflow { data := some (Json.num 5), loaded := false }).2).2.loaded
      = false) :=
  ⟨(C3_delivered_then_polls_empty { data := some (Json.num 5), loaded := false } 1 rfl).1
      _ (List.mem_cons_self _ _),
   (C3_delivered_then_polls_empty { data := some (Json.num 5), loaded := false } 1 rfl).2
      (Json.num 6)⟩

/-- C4: a failed submit (unparseable body) reports the parse error, changes
nothing in the mailbox, and in particular the next poll behaves exactly as it
would have without the failed submit; a previously held truthy, undelivered
payload is still returned. -/
theorem C4_failed_submit_atomic (s : PendingWorkflow) (e : String) :
    (load_workflow (Except.error e) s).2 = s ∧
    (load_workflow (Except.error e) s).1.success = false ∧
    (load_workflow (Except.error e) s).1.error = some e ∧
    get_pending_workflow (load_workflow (Except.error e) s).2 = get_pending_workflow s ∧
    (s.dataTruthy = true → s.loaded = false →
      (get_pending_workflow (load_workflow (Except.error e) s).2).1 =
        { hasWorkflow := true, workflow := s.data }) := by
  refine ⟨rfl, rfl, rfl, rfl, ?_⟩
  intro h1 h2
  rw [show (load_workflow (Except.error e) s).2 = s from rfl, poll_pending s h1 h2]

/-- C4, witness: a failed submit on a mailbox holding the undelivered payload
`3` leaves the state unchanged and the next poll still returns `3`. -/
theorem C4_failed_submit_atomic_witness :
    ((load_workflow (Except.error "boom")
        { data := some (Json.num 3), loaded := false }).2 =
      { data := some (Json.num 3), loaded := false }) ∧
    ((get_pending_workflow
        (load_workflow (Except.error "boom")
          { data := some (Json.num 3), loaded := false }).2).1 =
      { hasWorkflow := true, workflow := some (Json.num 3) }) :=
  ⟨(C4_failed_submit_atomic { data := some (Json.num 3), loaded := false } "boom").1,
   (C4_failed_submit_atomic { data := some (Json.num 3), loaded := false } "boom").2.2.2.2
      rfl rfl⟩

/-- C5: submit reports failure exactly when the body failed to parse; a
failure is an HTTP 400 response whose `error` field carries the parse error
text, and every parseable body yields a 200 success response. -/
theorem C5_submit_fails_iff_malformed :
    (∀ (b : Except String Json) (s : PendingWorkflow),
      (load_workflow b s).1.success = false ↔ ∃ e, b = Except.error e) ∧
    (∀ (e : String) (s : PendingWorkflow),
      (load_workflow (Except.error e) s).1.httpStatus = 400 ∧
      (load_workflow (Except.error e) s).1.error = some e) ∧
    (∀ (p : Json) (s : PendingWorkflow),
      (load_workflow (Except.ok p) s).1.success = true ∧
      (load_workflow (Except.ok p) s).1.httpStatus = 200) := by
  refine ⟨?_, fun e s => ⟨rfl, rfl⟩, fun p s => ⟨rfl, rfl⟩⟩
  intro b s
  cases b with
  | ok p => exact ⟨fun h => Bool.noConfusion h, fun ⟨e, h⟩ => Except.noConfusion h⟩
  | error e => exact ⟨fun _ => ⟨e, rfl⟩, fun _ => rfl⟩

/-- C5, witness: a concrete malformed submit yields a 400 failure carrying
the parse error, and a concrete well-formed submit succeeds. -/
theorem C5_submit_fails_iff_malformed_witness :
    ((load_workflow (Except.error "bad json") initial_pending_workflow).1.success = false) ∧
    ((load_workflow (Except.error "bad json") initial_pending_workflow).1.httpStatus = 400) ∧
    ((load_workflow (Except.ok (Json.num 1)) initial_pending_workflow).1.success = true) :=
  ⟨(C5_submit_fails_iff_malformed.1 (Except.error "bad json")
      initial_pending_workflow).mpr ⟨"bad json", rfl⟩,
   (C5_submit_fails_iff_malformed.2.1 "bad json" initial_pending_workflow).1,
   (C5_submit_fails_iff_malformed.2.2 (Json.num 1) initial_pending_workflow).1⟩

/-- C6: a successful submit of payload `p` leaves the mailbox in exactly the
state `(some p, delivered = false)` and returns success; the initial mailbox
is empty with the flag clear. -/
theorem C6_submit_postcondition :
    (∀ (p : Json) (s : PendingWorkflow),
      (load_workflow (Except.ok p) s).2 = { data := some p, loaded := false } ∧
      (load_workflow (Except.ok p) s).1.success = true) ∧
    initial_pending_workflow = { data := none, loaded := false } :=
  ⟨fun p s => ⟨rfl, rfl⟩, rfl⟩

/-- C6, witness: submitting the string payload `"w"` stores it undelivered. -/
theorem C6_submit_postcondition_witness :
    (load_workflow (Except.ok (Json.str "w")) initial_pending_workflow).2 =
      { data := some (Json.str "w"), loaded := false } :=
  (C6_submit_postcondition.1 (Json.str "w") initial_pending_workflow).1

/-- C7: the status handler returns the same fixed descriptor
(`installed = true`, version and name strings) in every mailbox state and
leaves the state untouched. -/
theorem C7_status_pure :
    ∀ s : PendingWorkflow,
      (status s).1 = { installed := true, version := "1.0.0",
                       name := "ComfyUI ArtHub Extension" } ∧
      (status s).2 = s :=
  fun s => ⟨rfl, rfl⟩

/-- C7, witness: the status descriptor on the initial mailbox. -/
theorem C7_status_pure_witness :
    (status initial_pending_workflow).1 =
      { installed := true, version := "1.0.0",
        name := "ComfyUI ArtHub Extension" } :=
  (C7_status_pure initial_pending_workflow).1

/-- C9: a poll never clears or modifies the stored payload: the data slot is
unchanged by any single poll (only the delivered flag may flip), it is
unchanged by any number of consecutive polls, and only a submit replaces
it. -/
theorem C9_poll_preserves_payload :
    (∀ s : PendingWorkflow,
      (get_pending_workflow s).2.data = s.data ∧
      ((get_pending_workflow s).2 = s ∨
       (get_pending_workflow s).2 = { s with loaded := true })) ∧
    (∀ (s : PendingWorkflow) (n : Nat), (pollIter s n).data = s.data) ∧
    (∀ (s : PendingWorkflow) (p : Json),
      (load_workflow (Except.ok p) s).2.data = some p) := by
  refine ⟨fun s => ⟨poll_data_eq s, poll_state_cases s⟩, ?_, fun s p => rfl⟩
  intro s n
  induction n generalizing s with
  | zero => rfl
  | succ k ih => rw [pollIter, ih, poll_data_eq]

/-- C9, witness: three consecutive polls leave the payload `4` in the
slot. -/
theorem C9_poll_preserves_payload_witness :
    (pollIter { data := some (Json.num 4), loaded := false } 3).data =
      some (Json.num 4) :=
  C9_poll_preserves_payload.2.1 { data := some (Json.num 4), loaded := false } 3

/-- C10: from the initial empty state, every reachable mailbox state
satisfies the invariant that the delivered flag is only set while a payload
is held; a poll only sets the flag when the slot was truthy (hence
non-empty), and a submit always pairs the stored payload with
`delivered = false`. -/
theorem C10_mailbox_invariant :
    (∀ ops : List Op,
      (run initial_pending_workflow ops).loaded = true →
      (run initial_pending_workflow ops).data ≠ none) ∧
    (∀ s : PendingWorkflow, (get_pending_workflow s).2.loaded = true →
      s.loaded = true ∨ s.data ≠ none) ∧
    (∀ (p : Json) (s : PendingWorkflow),
      (load_workflow (Except.ok p) s).2 = { data := some p, loaded := false }) := by
  refine ⟨?_, ?_, fun p s => rfl⟩
  · intro ops
    exact run_preserves_inv initial_pending_workflow
      (fun h => Bool.noConfusion h) ops
  · intro s h
    rcases poll_sets_loaded_truthy s h with h1 | h1
    · exact Or.inl h1
    · exact Or.inr (dataTruthy_some s h1)

/-- C10, witness: after a submit of `9` followed by a poll the flag is set
and a payload is indeed held. -/
theorem C10_mailbox_invariant_witness :
    (run initial_pending_workflow
        [Op.submit (Except.ok (Json.num 9)), Op.poll]).data ≠ none :=
  C10_mailbox_invariant.1 [Op.submit (Except.ok (Json.num 9)), Op.poll] rfl
